import Mathlib

/-!
A verification development for the msh content pipeline.

The Python modules are shallowly embedded: pure string processing becomes
functions on `List Char` / `String`, the relational store becomes explicit
lists of rows threaded through the operations, machine calls to external
services (the generative-text service, the HTTP sink, the hash function,
the JSON decoder) become explicit parameters.  Definitions keep the
source's snake_case names where possible.
-/

namespace Msh

/-! ## Python string primitives

Helpers mirroring the exact behaviour of the Python `str` operations used
by the source (`split`, `strip`, `join`, `replace(old, new, 1)`,
whitespace word splitting).  All of them are structural recursions so that
concrete inputs evaluate by `decide` / `rfl`.
-/

/-- Opening curly brace character (written via its code point). -/
def lbrace : Char := Char.ofNat 123

/-- Closing curly brace character (written via its code point). -/
def rbrace : Char := Char.ofNat 125

/-- Python `s.split(sep, 1)` when `sep` occurs in `s`: splits at the first
occurrence of `pat`, returning the part before and the part after.
Returns `none` when `pat` does not occur. -/
def splitFirst (pat : List Char) : List Char → Option (List Char × List Char)
  | [] => if pat.isEmpty then some ([], []) else none
  | c :: cs =>
    if pat.isPrefixOf (c :: cs) then some ([], (c :: cs).drop pat.length)
    else
      match splitFirst pat cs with
      | some (l, r) => some (c :: l, r)
      | none => none

/-- Python `sub in s`: whether `pat` occurs as a contiguous run of `s`. -/
def occursIn (pat : List Char) : List Char → Bool
  | [] => pat.isEmpty
  | c :: cs => pat.isPrefixOf (c :: cs) || occursIn pat cs

/-- Python `s.split(sep)[0]`: the prefix of `s` before the first occurrence
of `pat`, or all of `s` when `pat` does not occur. -/
def takeBefore (pat : List Char) (s : List Char) : List Char :=
  match splitFirst pat s with
  | some (l, _) => l
  | none => s

/-- Python `s.replace(old, new_value, 1)` with empty replacement: removes the
first occurrence of `pat` from `s` (or leaves `s` unchanged when absent). -/
def replaceFirst (pat : List Char) (s : List Char) : List Char :=
  match splitFirst pat s with
  | some (l, r) => l ++ r
  | none => s

/-- Python `s.lower()` (ASCII case folding, as `Char.toLower`). -/
def pyLower (s : List Char) : List Char :=
  s.map Char.toLower

/-- Python `s.strip()`: drop whitespace from both ends. -/
def pyStrip (s : List Char) : List Char :=
  ((s.dropWhile Char.isWhitespace).reverse.dropWhile Char.isWhitespace).reverse

/-- Python `s.split(sep)` for a one-character separator: keeps empty parts,
`"".split(sep) == [""]`. -/
def pySplitOnChar (sep : Char) : List Char → List (List Char)
  | [] => [[]]
  | c :: cs =>
    if c = sep then [] :: pySplitOnChar sep cs
    else
      match pySplitOnChar sep cs with
      | h :: t => (c :: h) :: t
      | [] => [[c]]

/-- Python `sep.join(parts)` for a one-character separator. -/
def joinWith (sep : Char) : List (List Char) → List Char
  | [] => []
  | [x] => x
  | x :: xs => x ++ sep :: joinWith sep xs

/-- Python `s.split('\n\n')`: split on the two-character separator,
left-to-right, non-overlapping. -/
def splitParagraphs : List Char → List (List Char)
  | [] => [[]]
  | '\n' :: '\n' :: cs => [] :: splitParagraphs cs
  | c :: cs =>
    match splitParagraphs cs with
    | h :: t => (c :: h) :: t
    | [] => [[c]]

/-- Accumulator for `pyWords`. -/
def pyWordsGo : List Char → List Char → List (List Char)
  | cur, [] => if cur.isEmpty then [] else [cur.reverse]
  | cur, c :: cs =>
    if c.isWhitespace then
      if cur.isEmpty then pyWordsGo [] cs else cur.reverse :: pyWordsGo [] cs
    else pyWordsGo (c :: cur) cs

/-- Python `s.split()` with no argument: whitespace-delimited tokens, no
empty tokens. -/
def pyWords (s : List Char) : List (List Char) :=
  pyWordsGo [] s

/-! ## Hand-compiled regular expressions of `parse_gemini_response`

Each `re.search` call of `analysis.py` uses a fixed pattern; the patterns
are compiled here by hand into deterministic scanners with the exact
leftmost-match / greedy / lazy semantics of the Python engine, restricted
to the ASCII behaviour of the character classes.
-/

/-- Generic `re.search` position scan: try a match at every start position,
left to right, and return the first success. -/
def scanFor (tryAt : List Char → Option α) : List Char → Option α
  | [] => tryAt []
  | c :: cs =>
    match tryAt (c :: cs) with
    | some r => some r
    | none => scanFor tryAt cs

/-- Backtracking choice for a greedy `\s*` / `\s+` followed by `(.+)`:
given the text `t` after the literal and the length `i` of the maximal
whitespace run, return the largest `k` with `kmin ≤ k ≤ i` such that the
character at position `k` of `t` exists and is not a newline (the position
where `(.+)` can start). -/
def backtrackPick (t : List Char) (kmin : Nat) : Nat → Option Nat
  | 0 =>
    if kmin = 0 then
      match t with
      | c :: _ => if c = '\n' then none else some 0
      | [] => none
    else none
  | k + 1 =>
    if k + 1 < kmin then none
    else
      match t.drop (k + 1) with
      | c :: _ => if c = '\n' then backtrackPick t kmin k else some (k + 1)
      | [] => backtrackPick t kmin k

/-- `KEY:\s*(.+)` matched at the start of `t` (text after the literal):
skip the whitespace run (backtracking as the greedy engine does), then
capture the rest of the line.  Used for `SEO_DESCRIPTION:` and
`CATEGORY:`. -/
def lineTailAfterSpaces (t : List Char) : Option (List Char) :=
  match backtrackPick t 0 ((t.takeWhile Char.isWhitespace).length) with
  | some k => some ((t.drop k).takeWhile (fun c => c ≠ '\n'))
  | none => none

/-- Match of `^#\s+(.+)$` at a line-start position: `'#'`, at least one
whitespace character (greedy, backtracking), then the rest of the line.
Returns `(group0, group1)`. -/
def titleTryAt (s : List Char) : Option (List Char × List Char) :=
  match s with
  | '#' :: t =>
    (match backtrackPick t 1 ((t.takeWhile Char.isWhitespace).length) with
     | some k =>
       let r := (t.drop k).takeWhile (fun c => c ≠ '\n')
       some ('#' :: (t.take k ++ r), r)
     | none => none)
  | _ => none

/-- `re.search(r'^#\s+(.+)$', s, re.MULTILINE)`: try the title pattern at
every line start (string start or right after a newline). -/
def findTitleGo : Bool → List Char → Option (List Char × List Char)
  | atLineStart, [] => if atLineStart then titleTryAt [] else none
  | atLineStart, c :: cs =>
    if atLineStart then
      match titleTryAt (c :: cs) with
      | some r => some r
      | none => findTitleGo (c = '\n') cs
    else findTitleGo (c = '\n') cs

/-- Leftmost multiline match of the title heading pattern. -/
def findTitle (s : List Char) : Option (List Char × List Char) :=
  findTitleGo true s

/-- Lazy `(.*?)` continuation: consume characters until `stop` holds on the
remaining text; fails only when the text runs out with `stop` never true. -/
def lazyCapture0 (stop : List Char → Bool) : List Char → Option (List Char)
  | [] => if stop [] then some [] else none
  | c :: cs =>
    if stop (c :: cs) then some []
    else (lazyCapture0 stop cs).map (c :: ·)

/-- The lookahead `(?=\n#{1,2}\s|\n[A-Z]{2,}|$)` of the executive-summary
pattern, under `re.IGNORECASE` (which makes `[A-Z]` match any ASCII
letter): stop at end of string, just before a final newline, before a
newline followed by a `#` or `##` heading, or before a newline followed by
two letters. -/
def summaryStop : List Char → Bool
  | [] => true
  | '\n' :: rest =>
    match rest with
    | [] => true
    | '#' :: '#' :: c :: _ => c.isWhitespace
    | '#' :: c :: _ => c.isWhitespace
    | a :: b :: _ => a.isAlpha && b.isAlpha
    | _ => false
  | _ => false

/-- Case-insensitive literal prefix test (for the
`EXECUTIVE SUMMARY|Executive Summary` alternation under `re.IGNORECASE`). -/
def lowerPrefixIs (lit : List Char) (s : List Char) : Bool :=
  (s.take lit.length).map Char.toLower == lit

/-- The executive-summary pattern matched at one position. -/
def summaryTryAt (s : List Char) : Option (List Char) :=
  if lowerPrefixIs "executive summary".data s then
    lazyCapture0 summaryStop (s.drop 17)
  else none

/-- `re.sub(r'\*\*|__', '', s)`: remove all bold markers, scanning left to
right without overlap. -/
def removeBoldMarkers : List Char → List Char
  | '*' :: '*' :: rest => removeBoldMarkers rest
  | '_' :: '_' :: rest => removeBoldMarkers rest
  | c :: rest => c :: removeBoldMarkers rest
  | [] => []

/-- `(.+?)` continuation of the `KEYWORDS` pattern after the opening
bracket, without `re.DOTALL`: at least one character, up to the first `]`,
failing if a newline comes first.  `capChars` is the zero-or-more tail. -/
def capChars : List Char → Option (List Char)
  | [] => none
  | c :: cs =>
    if c = ']' then some []
    else if c = '\n' then none
    else (capChars cs).map (c :: ·)

/-- One-or-more variant of `capChars` (the `+` of `(.+?)`). -/
def capToRBracket : List Char → Option (List Char)
  | [] => none
  | c :: cs =>
    if c = ']' then none
    else if c = '\n' then none
    else (capChars cs).map (c :: ·)

/-- `KEYWORDS:\s*\[(.+?)\]` matched at one position. -/
def kwTryAt (s : List Char) : Option (List Char) :=
  if "KEYWORDS:".data.isPrefixOf s then
    match (s.drop 9).dropWhile Char.isWhitespace with
    | '[' :: v => capToRBracket v
    | _ => none
  else none

/-- `SEO_DESCRIPTION:\s*(.+)` matched at one position. -/
def seoTryAt (s : List Char) : Option (List Char) :=
  if "SEO_DESCRIPTION:".data.isPrefixOf s then
    lineTailAfterSpaces (s.drop 16)
  else none

/-- `CATEGORY:\s*(.+)` matched at one position. -/
def categoryTryAt (s : List Char) : Option (List Char) :=
  if "CATEGORY:".data.isPrefixOf s then
    lineTailAfterSpaces (s.drop 9)
  else none

/-- `(.+?)` continuation of the `ENTITIES` pattern after the opening brace,
with `re.DOTALL`: up to the first closing brace, any characters allowed. -/
def braceChars : List Char → Option (List Char)
  | [] => none
  | c :: cs =>
    if c = rbrace then some []
    else (braceChars cs).map (c :: ·)

/-- One-or-more variant of `braceChars`. -/
def capToRBrace : List Char → Option (List Char)
  | [] => none
  | c :: cs =>
    if c = rbrace then none
    else (braceChars cs).map (c :: ·)

/-- `ENTITIES:\s*(\{.+?\})` matched at one position (`re.DOTALL`); the
capture includes the braces, as in the source. -/
def entTryAt (s : List Char) : Option (List Char) :=
  if "ENTITIES:".data.isPrefixOf s then
    match (s.drop 9).dropWhile Char.isWhitespace with
    | b :: v =>
      if b = lbrace then (capToRBrace v).map (fun cap => lbrace :: (cap ++ [rbrace]))
      else none
    | [] => none
  else none

/-- The lookahead `(?=\n[A-Z_]+:|$)` of the `INSTAGRAM_SUMMARY` pattern
(no IGNORECASE here): stop at end of string, just before a final newline,
or before a newline followed by a nonempty run of `[A-Z_]` and a colon. -/
def instaStop : List Char → Bool
  | [] => true
  | '\n' :: rest =>
    match rest with
    | [] => true
    | _ =>
      let run := rest.takeWhile (fun c => ('A' ≤ c && c ≤ 'Z') || c = '_')
      !run.isEmpty &&
        (match rest.drop run.length with
         | ':' :: _ => true
         | _ => false)
  | _ => false

/-- `INSTAGRAM_SUMMARY:\s*(.+?)(?=\n[A-Z_]+:|$)` matched at one position
(`re.DOTALL`, so the capture may span lines). -/
def instaTryAt (s : List Char) : Option (List Char) :=
  if "INSTAGRAM_SUMMARY:".data.isPrefixOf s then
    let t := s.drop 18
    if t.isEmpty then none
    else
      let k := min ((t.takeWhile Char.isWhitespace).length) (t.length - 1)
      match t.drop k with
      | c :: cs => (lazyCapture0 instaStop cs).map (c :: ·)
      | [] => none
  else none

/-! ## `parse_gemini_response` (analysis.py) -/

/-- The JSON object shape expected for `ENTITIES`: a map from entity
category to a list of strings. -/
abbrev Entities := List (String × List String)

/-- The dictionary returned by `parse_gemini_response` /
`analyze_with_gemini`: the eight fields of the analysis record. -/
structure AnalysisResult where
  title : String
  content : String
  summary : String
  seo_description : String
  keywords : List String
  entities : Entities
  instagram_summary : String
  word_count : Nat
  deriving DecidableEq, Repr

/-- The `---METADATA---` marker. -/
def metaMarker : List Char := "---METADATA---".data

/-- The `---END_METADATA---` marker. -/
def endMetaMarker : List Char := "---END_METADATA---".data

/-- The metadata section of a response: the text between the first
`---METADATA---` and the following `---END_METADATA---` (or end of
string), empty when the first marker is absent. -/
def metadataSectionOf (s : List Char) : List Char :=
  match splitFirst metaMarker s with
  | some (_, r) => takeBefore endMetaMarker r
  | none => []

/-- The article part of a response: the text before the first
`---METADATA---` marker, or the whole response when it is absent. -/
def articlePartOf (s : List Char) : List Char :=
  match splitFirst metaMarker s with
  | some (l, _) => l
  | none => s

/-- Title extraction step: the first markdown heading becomes the title and
its matched text is removed from the content; otherwise the first line
becomes the title.  Returns `(title, article_content)`, both stripped. -/
def extractTitle (article_content : List Char) : List Char × List Char :=
  match findTitle article_content with
  | some (g0, g1) => (pyStrip g1, pyStrip (replaceFirst g0 article_content))
  | none =>
    match pySplitOnChar '\n' article_content with
    | l0 :: rest => (pyStrip l0, pyStrip (joinWith '\n' rest))
    | [] => ("Untitled Intelligence Report".data, [])

/-- Executive-summary extraction: the summary section if the pattern
matches (stripped, bold markers removed, truncated to 500 characters),
else the first non-blank paragraph truncated to 500 characters. -/
def extractSummary (article_content : List Char) : List Char :=
  match scanFor summaryTryAt article_content with
  | some cap => (removeBoldMarkers (pyStrip cap)).take 500
  | none =>
    match (splitParagraphs article_content).filter (fun p => !(pyStrip p).isEmpty) with
    | p :: _ => p.take 500
    | [] => []

/-- `parse_gemini_response` of analysis.py.  `jsonLoads` stands for the
Python `json.loads` call on the `ENTITIES` capture: it returns `none`
exactly when `json.loads` raises (the `except` arm of the source). -/
def parse_gemini_response (jsonLoads : String → Option Entities)
    (response_text : String) : AnalysisResult :=
  let s := response_text.data
  let article0 := articlePartOf s
  let metadata_section := metadataSectionOf s
  let tc := extractTitle article0
  let title := tc.1
  let article_content := tc.2
  let summary := extractSummary article_content
  let seo_description :=
    if metadata_section.isEmpty then summary.take 160
    else
      match scanFor seoTryAt metadata_section with
      | some c => pyStrip c
      | none => []
  let keywords :=
    if metadata_section.isEmpty then []
    else
      match scanFor kwTryAt metadata_section with
      | some cap => (pySplitOnChar ',' cap).map pyStrip
      | none => []
  let entities :=
    if metadata_section.isEmpty then []
    else
      match scanFor entTryAt metadata_section with
      | some cap => (jsonLoads (String.mk cap)).getD []
      | none => []
  let instagram_summary :=
    if metadata_section.isEmpty then summary.take 300
    else
      match scanFor instaTryAt metadata_section with
      | some c => pyStrip c
      | none => summary.take 300
  { title := String.mk title
    content := String.mk article_content
    summary := String.mk summary
    seo_description := String.mk seo_description
    keywords := keywords.map String.mk
    entities := entities
    instagram_summary := String.mk instagram_summary
    word_count := (pyWords article_content).length }

/-! ## Schemas (models/schemas.py) and configuration (config.py) -/

/-- `ArticleCategory` enumeration. -/
inductive ArticleCategory
  | geopolitics
  | defense
  | cyber
  | finance
  deriving DecidableEq, Repr

/-- The `.value` string of a category. -/
def ArticleCategory.value : ArticleCategory → String
  | .geopolitics => "geopolitics"
  | .defense => "defense"
  | .cyber => "cyber"
  | .finance => "finance"

/-- `ArticleStatus` enumeration. -/
inductive ArticleStatus
  | draft
  | published
  | archived
  | failed
  deriving DecidableEq, Repr

/-- `PublishPlatform` enumeration. -/
inductive PublishPlatform
  | strapi
  | instagram
  deriving DecidableEq, Repr

/-- `PublishStatus` enumeration. -/
inductive PublishStatus
  | pending
  | processing
  | completed
  | failed
  deriving DecidableEq, Repr

/-- `RELEVANCE_KEYWORDS` of config.py, keyed by category. -/
def RELEVANCE_KEYWORDS : ArticleCategory → List String
  | .geopolitics =>
    ["sovereignty", "multilateral", "bilateral", "treaty", "sanctions",
     "diplomatic", "territorial", "strategic partnership", "alliance",
     "geopolitical", "foreign policy", "international relations"]
  | .defense =>
    ["kinetic", "military", "defense", "armed forces", "weapons system",
     "deterrence", "force projection", "strategic assets", "NATO",
     "joint exercises", "combat", "operations", "security cooperation"]
  | .cyber =>
    ["APT", "threat actor", "vulnerability", "cyber attack", "malware",
     "ransomware", "threat landscape", "attribution", "cyber espionage",
     "zero-day", "intrusion", "breach", "cybersecurity"]
  | .finance =>
    ["fiscal", "monetary policy", "sovereign debt", "liquidity",
     "central bank", "interest rate", "inflation", "GDP", "bond yield",
     "market volatility", "financial stability", "economic indicator"]

/-- The settings fields the embedded modules consult (config.py).
Relevance scores are embedded as rationals; the Python floats only ever
hold small exact ratios and configured thresholds. -/
structure Settings where
  strapi_api_token : String
  instagram_enabled : Bool
  max_articles_per_run : Nat
  min_relevance_score : ℚ
  article_min_words : Nat
  deriving DecidableEq, Repr

/-! ## Content ingestion (ingestion.py) -/

/-- The `NewsArticle` data class of ingestion.py. -/
structure NewsArticle where
  title : String
  content : String
  url : String
  source : String
  category : ArticleCategory
  published_date : Option Nat
  relevance_score : ℚ
  deriving DecidableEq, Repr

/-- `calculate_relevance_score` with the keyword table as an explicit
parameter (the source reads the module-level `RELEVANCE_KEYWORDS`):
count the category's keywords occurring case-insensitively in
title+content, divide by the number of keywords, cap at 1; an empty
keyword list scores 0. -/
def calculate_relevance_score_kw (kw : ArticleCategory → List String)
    (article : NewsArticle) : ℚ :=
  let category_keywords := kw article.category
  let text := pyLower (article.title ++ " " ++ article.content).data
  let matchCount : Nat :=
    category_keywords.foldl
      (fun n keyword => if occursIn (pyLower keyword.data) text then n + 1 else n) 0
  if category_keywords.isEmpty then 0
  else min ((matchCount : ℚ) / (category_keywords.length : ℚ)) 1

/-- `calculate_relevance_score` of ingestion.py, reading the configured
keyword table. -/
def calculate_relevance_score (article : NewsArticle) : ℚ :=
  calculate_relevance_score_kw RELEVANCE_KEYWORDS article

/-- The in-place update `article.relevance_score = calculate_relevance_score(article)`
performed by `filter_content`. -/
def withScore (article : NewsArticle) : NewsArticle :=
  { article with relevance_score := calculate_relevance_score article }

/-- `filter_content` of ingestion.py with the threshold explicit (the
Python default is `settings.min_relevance_score`): recompute each score,
drop items with score below `min_score` or content shorter than 100
characters, then sort by descending score (Python's stable sort). -/
def filter_content (articles : List NewsArticle) (min_score : ℚ) : List NewsArticle :=
  let filtered := (articles.map withScore).filter
    (fun a => !decide (a.relevance_score < min_score) && !decide (a.content.length < 100))
  filtered.mergeSort (fun a b => decide (b.relevance_score ≤ a.relevance_score))

/-- Title normalisation of `deduplicate`:
`re.sub(r'[^\w\s]', '', title.lower())` — lowercase, then keep only word
characters (ASCII letters, digits, underscore) and whitespace. -/
def normalizeTitle (s : String) : String :=
  String.mk ((pyLower s.data).filter (fun c => c.isAlphanum || c = '_' || c.isWhitespace))

/-- The loop of `deduplicate`, threading the `seen_titles` set. -/
def dedupGo (seen : List String) : List NewsArticle → List NewsArticle
  | [] => []
  | a :: rest =>
    let normalized := normalizeTitle a.title
    if normalized ∈ seen then dedupGo seen rest
    else a :: dedupGo (normalized :: seen) rest

/-- `deduplicate` of ingestion.py: drop items whose normalised title was
already seen, keeping first occurrences in order. -/
def deduplicate (articles : List NewsArticle) : List NewsArticle :=
  dedupGo [] articles

/-! ## Database layer (database.py)

The relational store becomes explicit lists of rows; `datetime.utcnow()`
becomes an explicit `now : Nat` parameter and the SHA-256 of
`create_content_hash` an explicit function parameter `sha256` (hashlib is
an external primitive; none of the verified properties depend on the
hash beyond it being a function). -/

/-- A row of the `articles` table. -/
structure Article where
  id : Nat
  title : String
  content : String
  summary : String
  category : ArticleCategory
  source_url : Option String
  source_name : Option String
  raw_content : Option String
  word_count : Option Nat
  relevance_score : Option ℚ
  status : ArticleStatus
  created_at : Nat
  published_at : Option Nat
  deriving DecidableEq, Repr

/-- A row of the `metadata` table. -/
structure MetadataRow where
  article_id : Nat
  tags : List String
  keywords : List String
  seo_description : Option String
  entities : Entities
  instagram_caption : Option String
  instagram_hashtags : List String
  deriving DecidableEq, Repr

/-- The parsed JSON body of a Strapi response (opaque payload). -/
structure StrapiData where
  raw : String
  deriving DecidableEq, Repr

/-- Opaque response data of an Instagram post. -/
abbrev InstaData := List (String × String)

/-- The value returned by `publish_to_strapi`: either the
"Strapi not configured" error dictionary (returned, not raised, when the
token is missing or the placeholder) or the sink's response data. -/
inductive StrapiResult
  | config_error (msg : String)
  | response (data : StrapiData)
  deriving DecidableEq, Repr

/-- The JSON `platform_data` recorded on a queue entry. -/
inductive PlatformData
  | strapi (r : StrapiResult)
  | instagram (r : InstaData)
  deriving DecidableEq, Repr

/-- A row of the `publish_queue` table. -/
structure PublishQueue where
  id : Nat
  article_id : Nat
  platform : PublishPlatform
  status : PublishStatus
  scheduled_time : Option Nat
  published_time : Option Nat
  retry_count : Nat
  error_message : Option String
  platform_data : Option PlatformData
  deriving DecidableEq, Repr

/-- A row of the `source_cache` table. -/
structure SourceCache where
  source_url : String
  content_hash : String
  deriving DecidableEq, Repr

/-- The whole store. -/
structure Database where
  articles : List Article
  metadataRows : List MetadataRow
  queue : List PublishQueue
  source_cache : List SourceCache
  deriving DecidableEq, Repr

/-- The empty store. -/
def Database.empty : Database :=
  { articles := [], metadataRows := [], queue := [], source_cache := [] }

/-- `is_duplicate` of database.py: true when a `source_cache` row matches
the URL, or one matches the SHA-256 hash of the content. -/
def is_duplicate (sha256 : String → String) (cache : List SourceCache)
    (url : String) (content : String) : Bool :=
  let content_hash := sha256 content
  if cache.any (fun e => e.source_url == url) then true
  else if cache.any (fun e => e.content_hash == content_hash) then true
  else false

/-- `save_article` of database.py: insert the article row (id assigned,
status `draft`), then — when both `source_url` and `content` are truthy —
insert the dedup-cache row for (url, hash of content). -/
def save_article (sha256 : String → String) (db : Database)
    (title content summary : String) (category : ArticleCategory)
    (source_url source_name raw_content : Option String)
    (word_count : Option Nat) (relevance_score : Option ℚ)
    (now : Nat) : Database × Article :=
  let article : Article :=
    { id := db.articles.length + 1
      title := title, content := content, summary := summary
      category := category
      source_url := source_url, source_name := source_name
      raw_content := raw_content
      word_count := word_count, relevance_score := relevance_score
      status := ArticleStatus.draft
      created_at := now, published_at := none }
  let db1 := { db with articles := db.articles ++ [article] }
  let db2 :=
    match source_url with
    | some url =>
      if url ≠ "" ∧ content ≠ "" then
        { db1 with source_cache :=
            db1.source_cache ++ [{ source_url := url, content_hash := sha256 content }] }
      else db1
    | none => db1
  (db2, article)

/-- `save_metadata` of database.py: insert a metadata row. -/
def save_metadata (db : Database) (article_id : Nat)
    (tags keywords : List String) (seo_description : Option String)
    (entities : Entities) (instagram_caption : Option String)
    (instagram_hashtags : List String) : Database × MetadataRow :=
  let row : MetadataRow :=
    { article_id := article_id, tags := tags, keywords := keywords
      seo_description := seo_description, entities := entities
      instagram_caption := instagram_caption
      instagram_hashtags := instagram_hashtags }
  ({ db with metadataRows := db.metadataRows ++ [row] }, row)

/-- `add_to_publish_queue` of database.py: insert a `pending` entry. -/
def add_to_publish_queue (db : Database) (article_id : Nat)
    (platform : PublishPlatform) (scheduled_time : Option Nat) :
    Database × PublishQueue :=
  let entry : PublishQueue :=
    { id := db.queue.length + 1
      article_id := article_id, platform := platform
      status := PublishStatus.pending
      scheduled_time := scheduled_time, published_time := none
      retry_count := 0, error_message := none, platform_data := none }
  ({ db with queue := db.queue ++ [entry] }, entry)

/-- `get_pending_publications` of database.py (no platform filter, as the
drain calls it). -/
def get_pending_publications (queue : List PublishQueue) : List PublishQueue :=
  queue.filter (fun e => e.status == PublishStatus.pending)

/-- The field updates `update_publish_status` applies to the entry it
finds: set the status; on `completed` set `published_time`; on `failed`
increment `retry_count` and record the error message; store
`platform_data` when one is given (`if platform_data:` — `PlatformData`
models the non-empty dictionaries the drain passes; `none` is `None`). -/
def applyStatus (e : PublishQueue) (status : PublishStatus)
    (error_message : Option String) (platform_data : Option PlatformData)
    (now : Nat) : PublishQueue :=
  let e1 := { e with status := status }
  let e2 :=
    if status == PublishStatus.completed then { e1 with published_time := some now } else e1
  let e3 :=
    if status == PublishStatus.failed then
      { e2 with retry_count := e2.retry_count + 1, error_message := error_message }
    else e2
  match platform_data with
  | some pd => { e3 with platform_data := some pd }
  | none => e3

/-- `update_publish_status` of database.py: update the first entry with
the given id; raise (`ValueError`, embedded as `.error`) when no entry
matches. -/
def update_publish_status (queue : List PublishQueue) (queue_id : Nat)
    (status : PublishStatus) (error_message : Option String)
    (platform_data : Option PlatformData) (now : Nat) :
    Except String (List PublishQueue) :=
  match queue with
  | [] => Except.error ("Queue entry " ++ toString queue_id ++ " not found")
  | e :: rest =>
    if e.id == queue_id then
      Except.ok (applyStatus e status error_message platform_data now :: rest)
    else
      match update_publish_status rest queue_id status error_message platform_data now with
      | Except.ok r => Except.ok (e :: r)
      | Except.error m => Except.error m

/-- The first-match update of `mark_article_published`; when no article
has the id, the list is returned unchanged (`if article:` guards the
mutation). -/
def markPublishedGo (articles : List Article) (article_id : Nat) (now : Nat) :
    List Article :=
  match articles with
  | [] => []
  | a :: rest =>
    if a.id == article_id then
      { a with status := ArticleStatus.published, published_at := some now } :: rest
    else a :: markPublishedGo rest article_id now

/-- `mark_article_published` of database.py.  The `Except` return makes
the absence of any raising path explicit: the function returns normally
whether or not the article exists. -/
def mark_article_published (articles : List Article) (article_id : Nat)
    (now : Nat) : Except String (List Article) :=
  Except.ok (markPublishedGo articles article_id now)

/-! ## Publishing (publishing.py)

`requests.post` and the Instagram transport are external I/O: each call
site takes an oracle describing the network outcome — `.error` for a
raised `requests` exception (connection error, timeout, or
`raise_for_status` on a bad status) and `.ok` for a decoded response
body. -/

/-- The JSON payload `publish_to_strapi` posts to the CMS (the
`publishedAt` timestamp is part of the request, not of any verified
behaviour, and is elided). -/
structure StrapiPayload where
  title : String
  content : String
  summary : String
  category : String
  source_url : Option String
  word_count : Option Nat
  deriving DecidableEq, Repr

/-- Payload assembly of `publish_to_strapi`. -/
def strapiPayload (article : Article) : StrapiPayload :=
  { title := article.title, content := article.content
    summary := article.summary, category := article.category.value
    source_url := article.source_url, word_count := article.word_count }

/-- `publish_to_strapi` of publishing.py.  When the API token is empty or
the placeholder, the function returns the error dictionary as a normal
value; otherwise the payload is posted and a transport error is re-raised
(`.error`), a successful response returned. -/
def publish_to_strapi (strapi_api_token : String) (article : Article)
    (http : StrapiPayload → Except String StrapiData) :
    Except String StrapiResult :=
  if strapi_api_token = "" ∨ strapi_api_token = "your_strapi_api_token_here" then
    Except.ok (StrapiResult.config_error "Strapi not configured")
  else
    match http (strapiPayload article) with
    | Except.ok data => Except.ok (StrapiResult.response data)
    | Except.error e => Except.error e

/-- One iteration of the `process_publish_queue` loop over a pending
entry: look the article up (skip when missing), move the entry to
`processing`, invoke the platform's publisher, then mark the entry
`completed` (recording the platform data, and for the CMS platform also
marking the article published) or, when the publisher raised, `failed`.
An exception escaping the `except` handler itself is `.error`. -/
def processQueueEntry (strapi_api_token : String) (db : Database)
    (entry : PublishQueue) (http : StrapiPayload → Except String StrapiData)
    (insta : Except String InstaData) (now : Nat) :
    Except String Database :=
  match db.articles.find? (fun a => a.id == entry.article_id) with
  | none => Except.ok db
  | some article =>
    match update_publish_status db.queue entry.id PublishStatus.processing none none now with
    | Except.error e =>
      -- the `processing` update raised inside the `try`; the handler
      -- retries with `FAILED`, which raises again for the same reason
      (match update_publish_status db.queue entry.id PublishStatus.failed (some e) none now with
       | Except.ok q => Except.ok { db with queue := q }
       | Except.error e2 => Except.error e2)
    | Except.ok q1 =>
      let db1 := { db with queue := q1 }
      let outcome : Except String Database :=
        match entry.platform with
        | PublishPlatform.strapi =>
          (match publish_to_strapi strapi_api_token article http with
           | Except.error e => Except.error e
           | Except.ok result =>
             (match update_publish_status db1.queue entry.id PublishStatus.completed
                 none (some (PlatformData.strapi result)) now with
              | Except.error e => Except.error e
              | Except.ok q2 =>
                (match mark_article_published db1.articles article.id now with
                 | Except.error e => Except.error e
                 | Except.ok arts => Except.ok { db1 with queue := q2, articles := arts })))
        | PublishPlatform.instagram =>
          (match insta with
           | Except.error e => Except.error e
           | Except.ok result =>
             (match update_publish_status db1.queue entry.id PublishStatus.completed
                 none (some (PlatformData.instagram result)) now with
              | Except.error e => Except.error e
              | Except.ok q2 => Except.ok { db1 with queue := q2 }))
      match outcome with
      | Except.ok db2 => Except.ok db2
      | Except.error e =>
        (match update_publish_status db1.queue entry.id PublishStatus.failed (some e) none now with
         | Except.ok q3 => Except.ok { db1 with queue := q3 }
         | Except.error e2 => Except.error e2)

/-- The loop of `process_publish_queue` over the pending snapshot, with a
per-entry network oracle keyed by entry id. -/
def processQueueEntries (strapi_api_token : String)
    (http : Nat → StrapiPayload → Except String StrapiData)
    (insta : Nat → Except String InstaData) (now : Nat) :
    Database → List PublishQueue → Except String Database
  | db, [] => Except.ok db
  | db, entry :: rest =>
    match processQueueEntry strapi_api_token db entry (http entry.id) (insta entry.id) now with
    | Except.ok db1 => processQueueEntries strapi_api_token http insta now db1 rest
    | Except.error e => Except.error e

/-- `process_publish_queue` of publishing.py: snapshot the pending
entries, then process each in creation order. -/
def process_publish_queue (strapi_api_token : String) (db : Database)
    (http : Nat → StrapiPayload → Except String StrapiData)
    (insta : Nat → Except String InstaData) (now : Nat) :
    Except String Database :=
  processQueueEntries strapi_api_token http insta now db
    (get_pending_publications db.queue)

/-! ## Pipeline orchestrator (scripts/run_pipeline.py)

The per-item loop of `run_pipeline`, stages 2–3.  The Gemini call of
`analyze_with_gemini` is an external service: its outcome is an oracle
(`.error` when the call raises and the item is skipped).  Every external
delivery call that the item reaches is recorded as an `Event`,
independent of its outcome. -/

/-- A delivery attempt the pipeline makes for an article. -/
inductive Event
  | cmsAttempt (article_id : Nat)
  | socialAttempt (article_id : Nat)
  deriving DecidableEq, Repr

/-- The mutable counters of `run_pipeline` together with the store. -/
structure PipelineState where
  db : Database
  processed_count : Nat
  skipped_count : Nat
  deriving DecidableEq, Repr

/-- Per-item external outcomes. -/
structure ItemOracles where
  analysis : Except String AnalysisResult
  http : StrapiPayload → Except String StrapiData
  insta : Except String InstaData

/-- The stage-3 publishing block of `run_pipeline` (lines 117–139):
publish to Strapi inside its own `try` (marking the article published on
a normal return, logging on an exception), then — when Instagram is
enabled — post to Instagram inside its own `try`.  No publish-queue entry
is involved.  In the source this block is unreachable: the `save_metadata`
call before it always raises (see `run_pipeline_item`). -/
def publishStage (settings : Settings) (db : Database) (article : Article)
    (http : StrapiPayload → Except String StrapiData)
    (insta : Except String InstaData) (now : Nat) : Database × List Event :=
  let articles1 :=
    match publish_to_strapi settings.strapi_api_token article http with
    | Except.ok _ =>
      (match mark_article_published db.articles article.id now with
       | Except.ok arts => arts
       | Except.error _ => db.articles)
    | Except.error _ => db.articles
  let ev2 : List Event :=
    if settings.instagram_enabled then
      match insta with
      | Except.ok _ => [Event.socialAttempt article.id]
      | Except.error _ => [Event.socialAttempt article.id]
    else []
  ({ db with articles := articles1 }, Event.cmsAttempt article.id :: ev2)

/-- One iteration of the for-loop of `run_pipeline` (lines 64–145): skip
duplicates; run the analysis (skipping the item when the service call
raises); skip analyses below the word minimum; persist the article.  The
following `save_metadata` call passes the keyword argument
`instagram_summary`, which is not a parameter of `save_metadata`
(database.py declares `instagram_caption`): the call raises `TypeError`
before inserting a row, the per-item `except` catches and logs it, and
the loop moves on — so `processed_count`, the metadata insert and the
stage-3 publishing block (`publishStage`) are never reached. -/
def run_pipeline_item (settings : Settings) (sha256 : String → String)
    (dry_run : Bool) (s : PipelineState) (item : NewsArticle)
    (oracles : ItemOracles) (now : Nat) : PipelineState × List Event :=
  if is_duplicate sha256 s.db.source_cache item.url item.content then
    ({ s with skipped_count := s.skipped_count + 1 }, [])
  else
    match oracles.analysis with
    | Except.error _ => (s, [])
    | Except.ok analysis =>
      if analysis.word_count < settings.article_min_words then
        ({ s with skipped_count := s.skipped_count + 1 }, [])
      else
        let saved := save_article sha256 s.db analysis.title analysis.content
          analysis.summary item.category (some item.url) (some item.source)
          (some item.content) (some analysis.word_count)
          (some item.relevance_score) now
        -- save_metadata(..., instagram_summary=...) raises TypeError here;
        -- the handler catches it and the iteration ends with only the
        -- article row (and its source-cache entry) committed
        ({ s with db := saved.1 }, [])

/-- The for-loop of `run_pipeline` over the items to process. -/
def run_pipeline_loop (settings : Settings) (sha256 : String → String)
    (dry_run : Bool) (now : Nat) :
    PipelineState → List (NewsArticle × ItemOracles) → PipelineState × List Event
  | s, [] => (s, [])
  | s, (item, oracles) :: rest =>
    let step := run_pipeline_item settings sha256 dry_run s item oracles now
    let tail := run_pipeline_loop settings sha256 dry_run now step.1 rest
    (tail.1, step.2 ++ tail.2)

/-! ## Supporting lemmas -/

/-- The match-counting fold of `calculate_relevance_score` counts the
keywords satisfying the occurrence test. -/
theorem foldl_count_eq_filter_length (p : String → Bool) (l : List String) (n : Nat) :
    l.foldl (fun acc k => if p k then acc + 1 else acc) n = n + (l.filter p).length := by
  induction l generalizing n with
  | nil => simp
  | cons a t ih =>
    by_cases h : p a <;> simp [List.filter_cons, h, ih, Nat.add_assoc, Nat.add_comm 1]

/-! ## C6: relevance score bounds and formula -/

/-- C6.  For every keyword table and item the relevance score lies in
[0,1]; it equals the number of the category's keywords occurring
case-insensitively in title+body divided by the total number of that
category's keywords, capped at 1; and a category with an empty keyword
list scores exactly 0. -/
theorem relevance_score_spec (kw : ArticleCategory → List String) (article : NewsArticle) :
    0 ≤ calculate_relevance_score_kw kw article ∧
    calculate_relevance_score_kw kw article ≤ 1 ∧
    calculate_relevance_score_kw kw article =
      (if kw article.category = [] then 0
       else
         min ((((kw article.category).filter (fun k =>
             occursIn (pyLower k.data)
               (pyLower (article.title ++ " " ++ article.content).data))).length : ℚ)
           / ((kw article.category).length : ℚ)) 1) ∧
    (kw article.category = [] → calculate_relevance_score_kw kw article = 0) := by
  have hfold := foldl_count_eq_filter_length
    (fun k => occursIn (pyLower k.data) (pyLower (article.title ++ " " ++ article.content).data))
    (kw article.category) 0
  have heq : calculate_relevance_score_kw kw article =
      (if kw article.category = [] then 0
       else
         min ((((kw article.category).filter (fun k =>
             occursIn (pyLower k.data)
               (pyLower (article.title ++ " " ++ article.content).data))).length : ℚ)
           / ((kw article.category).length : ℚ)) 1) := by
    unfold calculate_relevance_score_kw
    simp only [hfold, Nat.zero_add, List.isEmpty_iff]
  refine ⟨?_, ?_, heq, ?_⟩
  · rw [heq]
    by_cases h : kw article.category = []
    · simp [h]
    · simp only [h, if_false, le_min_iff]
      constructor
      · positivity
      · norm_num
  · rw [heq]
    by_cases h : kw article.category = []
    · simp [h]
    · simp only [h, if_false]
      exact min_le_right _ _
  · intro h
    rw [heq, if_pos h]

/-- Witness for C6 at a concrete item and keyword table (including the
empty-keyword-list case). -/
theorem relevance_score_spec_witness :
    calculate_relevance_score_kw (fun _ => [])
      { title := "NATO Expands", content := "military operations", url := "u",
        source := "s", category := ArticleCategory.defense,
        published_date := none, relevance_score := 0 } = 0 :=
  (relevance_score_spec (fun _ => [])
    { title := "NATO Expands", content := "military operations", url := "u",
      source := "s", category := ArticleCategory.defense,
      published_date := none, relevance_score := 0 }).2.2.2 rfl

/-! ## C2: dedup cache hits after a record -/

/-- C2.  After `save_article` records a non-empty `(url, content)` pair in
the source cache, `is_duplicate` answers true for that very pair and for
the same URL with any other body; in general a match on either dimension
suffices: any cache whose rows include the URL answers true for every
body, and any cache whose rows include the body's hash answers true for
every URL. -/
theorem is_duplicate_after_record (sha256 : String → String) (db : Database)
    (title summary : String) (category : ArticleCategory)
    (url content : String) (source_name raw_content : Option String)
    (word_count : Option Nat) (relevance_score : Option ℚ) (now : Nat)
    (hurl : url ≠ "") (hcontent : content ≠ "") (body' : String) :
    is_duplicate sha256
      ((save_article sha256 db title content summary category (some url)
        source_name raw_content word_count relevance_score now).1).source_cache
      url content = true ∧
    is_duplicate sha256
      ((save_article sha256 db title content summary category (some url)
        source_name raw_content word_count relevance_score now).1).source_cache
      url body' = true ∧
    (∀ (cache : List SourceCache) (u b : String),
      (∃ e ∈ cache, e.source_url = u) → is_duplicate sha256 cache u b = true) ∧
    (∀ (cache : List SourceCache) (u b : String),
      (∃ e ∈ cache, e.content_hash = sha256 b) → is_duplicate sha256 cache u b = true) := by
  have hcache :
      ((save_article sha256 db title content summary category (some url)
        source_name raw_content word_count relevance_score now).1).source_cache =
      db.source_cache ++ [{ source_url := url, content_hash := sha256 content }] := by
    simp [save_article, hurl, hcontent]
  have hgen : ∀ (cache : List SourceCache) (u b : String),
      (∃ e ∈ cache, e.source_url = u) → is_duplicate sha256 cache u b = true := by
    intro cache u b ⟨e, he, hu⟩
    have hany : cache.any (fun x => x.source_url == u) = true :=
      List.any_eq_true.mpr ⟨e, he, by simp [hu]⟩
    simp [is_duplicate, hany]
  have hmem : ∀ b : String,
      is_duplicate sha256
        ((save_article sha256 db title content summary category (some url)
          source_name raw_content word_count relevance_score now).1).source_cache
        url b = true := by
    intro b
    refine hgen _ _ _ ⟨{ source_url := url, content_hash := sha256 content }, ?_, rfl⟩
    rw [hcache]
    simp
  have hgenHash : ∀ (cache : List SourceCache) (u b : String),
      (∃ e ∈ cache, e.content_hash = sha256 b) → is_duplicate sha256 cache u b = true := by
    intro cache u b ⟨e, he, hh⟩
    have hany : cache.any (fun x => x.content_hash == sha256 b) = true :=
      List.any_eq_true.mpr ⟨e, he, by simp [hh]⟩
    unfold is_duplicate
    split
    · rfl
    · simp [hany]
  exact ⟨hmem content, hmem body', hgen, hgenHash⟩

/-- Witness for C2: recording a concrete pair makes both the same body
and a different body count as duplicates. -/
theorem is_duplicate_after_record_witness :
    is_duplicate (fun s => s)
      ((save_article (fun s => s) Database.empty "t" "the body" "sum"
        ArticleCategory.cyber (some "https://example.org/a") none none none none 0).1).source_cache
      "https://example.org/a" "the body" = true ∧
    is_duplicate (fun s => s)
      ((save_article (fun s => s) Database.empty "t" "the body" "sum"
        ArticleCategory.cyber (some "https://example.org/a") none none none none 0).1).source_cache
      "https://example.org/a" "another body" = true :=
  ⟨(is_duplicate_after_record (fun s => s) Database.empty "t" "sum"
      ArticleCategory.cyber "https://example.org/a" "the body" none none none none 0
      (by decide) (by decide) "another body").1,
   (is_duplicate_after_record (fun s => s) Database.empty "t" "sum"
      ArticleCategory.cyber "https://example.org/a" "the body" none none none none 0
      (by decide) (by decide) "another body").2.1⟩

/-! ## C7: CMS publish outcomes -/

/-- A fixture article row used by concrete counterexamples and witnesses. -/
def sampleArticle : Article :=
  { id := 1, title := "Sample", content := "Body", summary := "Sum"
    category := ArticleCategory.defense
    source_url := some "https://example.org/a", source_name := some "src"
    raw_content := none, word_count := some 1600, relevance_score := some 1
    status := ArticleStatus.draft, created_at := 0, published_at := none }

/-- Counterexample to C7 as stated: with the API token unconfigured the
publish attempt does not deliver anything, yet `publish_to_strapi`
returns the error dictionary as a normal value instead of raising. -/
theorem publish_to_strapi_unconfigured_cex :
    publish_to_strapi "" sampleArticle (fun _ => Except.ok { raw := "resp" }) =
      Except.ok (StrapiResult.config_error "Strapi not configured") := rfl

/-- C7 as amended.  With a configured token, a transport failure of the
POST surfaces as a raised error and a successful POST returns the sink's
response data; with a missing or placeholder token the function instead
returns the "Strapi not configured" dictionary without raising. -/
theorem publish_to_strapi_outcomes (token : String) (article : Article)
    (http : StrapiPayload → Except String StrapiData)
    (h1 : token ≠ "") (h2 : token ≠ "your_strapi_api_token_here") :
    (∀ e, http (strapiPayload article) = Except.error e →
      publish_to_strapi token article http = Except.error e) ∧
    (∀ d, http (strapiPayload article) = Except.ok d →
      publish_to_strapi token article http = Except.ok (StrapiResult.response d)) ∧
    (∀ badToken, badToken = "" ∨ badToken = "your_strapi_api_token_here" →
      publish_to_strapi badToken article http =
        Except.ok (StrapiResult.config_error "Strapi not configured")) := by
  have hcond : ¬(token = "" ∨ token = "your_strapi_api_token_here") := by
    rintro (h | h) <;> [exact h1 h; exact h2 h]
  refine ⟨?_, ?_, ?_⟩
  · intro e he
    simp [publish_to_strapi, hcond, he]
  · intro d hd
    simp [publish_to_strapi, hcond, hd]
  · intro badToken hbad
    simp [publish_to_strapi, hbad]

/-- Witness for C7 (amended) at a configured token: a transport error is
re-raised and a response is returned. -/
theorem publish_to_strapi_outcomes_witness :
    publish_to_strapi "a-real-strapi-token-of-enough-length" sampleArticle
      (fun _ => Except.error "timeout") = Except.error "timeout" ∧
    publish_to_strapi "a-real-strapi-token-of-enough-length" sampleArticle
      (fun _ => Except.ok { raw := "resp" }) =
      Except.ok (StrapiResult.response { raw := "resp" }) :=
  ⟨(publish_to_strapi_outcomes "a-real-strapi-token-of-enough-length" sampleArticle
      (fun _ => Except.error "timeout") (by decide) (by decide)).1 "timeout" rfl,
   (publish_to_strapi_outcomes "a-real-strapi-token-of-enough-length" sampleArticle
      (fun _ => Except.ok { raw := "resp" }) (by decide) (by decide)).2.1
      { raw := "resp" } rfl⟩

/-! ## C8: unknown-id behaviour of the persistence layer -/

/-- Counterexample to C8 as stated: `mark_article_published` on an id for
which no article exists returns normally, leaving the store unchanged,
instead of failing with a not-found error. -/
theorem mark_article_published_missing_cex :
    mark_article_published [] 1 0 = Except.ok [] := rfl

/-- The first-match update of `mark_article_published` leaves the list
unchanged when no row has the id. -/
theorem markPublishedGo_of_not_mem (articles : List Article) (article_id now : Nat)
    (h : ∀ a ∈ articles, a.id ≠ article_id) :
    markPublishedGo articles article_id now = articles := by
  induction articles with
  | nil => rfl
  | cons a t ih =>
    have ha : (a.id == article_id) = false := by
      simp [h a (List.mem_cons_self a t)]
    simp only [markPublishedGo, ha, Bool.false_eq_true, if_false, List.cons.injEq, true_and]
    exact ih (fun x hx => h x (List.mem_cons_of_mem a hx))

/-- C8 as amended.  `update_publish_status` on an id matching no queue
entry raises (`ValueError`, not a dedicated not-found error class) and the
error propagates; `mark_article_published` on an id matching no article
returns normally and leaves the store unchanged. -/
theorem unknown_id_behavior :
    (∀ (queue : List PublishQueue) (queue_id : Nat) (status : PublishStatus)
        (error_message : Option String) (platform_data : Option PlatformData) (now : Nat),
      (∀ e ∈ queue, e.id ≠ queue_id) →
      update_publish_status queue queue_id status error_message platform_data now =
        Except.error ("Queue entry " ++ toString queue_id ++ " not found")) ∧
    (∀ (articles : List Article) (article_id now : Nat),
      (∀ a ∈ articles, a.id ≠ article_id) →
      mark_article_published articles article_id now = Except.ok articles) := by
  constructor
  · intro queue queue_id status error_message platform_data now h
    induction queue with
    | nil => rfl
    | cons e t ih =>
      have he : (e.id == queue_id) = false := by
        simp [h e (List.mem_cons_self e t)]
      simp only [update_publish_status, he, Bool.false_eq_true, if_false]
      rw [ih (fun x hx => h x (List.mem_cons_of_mem e hx))]
  · intro articles article_id now h
    unfold mark_article_published
    rw [markPublishedGo_of_not_mem articles article_id now h]

/-- Witness for C8 (amended): a concrete unknown queue id raises, a
concrete unknown article id silently leaves the one-row store unchanged. -/
theorem unknown_id_behavior_witness :
    update_publish_status [] 5 PublishStatus.processing none none 0 =
      Except.error "Queue entry 5 not found" ∧
    mark_article_published [sampleArticle] 99 3 = Except.ok [sampleArticle] :=
  ⟨unknown_id_behavior.1 [] 5 PublishStatus.processing none none 0 (by simp),
   unknown_id_behavior.2 [sampleArticle] 99 3 (by decide)⟩

/-! ## C4: a raising analysis call leaves the store untouched -/

/-- C4.  When the generation service call raises for a (non-duplicate)
item, the per-item handler catches the error: the iteration returns the
state completely unchanged — no article row, no metadata row, no
dedup-cache entry, no counters moved — makes no delivery attempt, and the
loop continues with the remaining items from that same state.  (The
accompanying log line is console output, outside the embedding.) -/
theorem analysis_error_skips_item (settings : Settings) (sha256 : String → String)
    (dry_run : Bool) (s : PipelineState) (item : NewsArticle)
    (oracles : ItemOracles) (now : Nat)
    (rest : List (NewsArticle × ItemOracles)) (e : String)
    (hdup : is_duplicate sha256 s.db.source_cache item.url item.content = false)
    (herr : oracles.analysis = Except.error e) :
    run_pipeline_item settings sha256 dry_run s item oracles now = (s, []) ∧
    run_pipeline_loop settings sha256 dry_run now s ((item, oracles) :: rest) =
      run_pipeline_loop settings sha256 dry_run now s rest := by
  have hitem : run_pipeline_item settings sha256 dry_run s item oracles now = (s, []) := by
    simp [run_pipeline_item, hdup, herr]
  refine ⟨hitem, ?_⟩
  simp [run_pipeline_loop, hitem]

/-- Witness for C4 at a concrete state and failing oracle. -/
theorem analysis_error_skips_item_witness :
    run_pipeline_item
      { strapi_api_token := "a-real-strapi-token-of-enough-length",
        instagram_enabled := true, max_articles_per_run := 5,
        min_relevance_score := 7/10, article_min_words := 1500 }
      (fun s => s) false
      { db := Database.empty, processed_count := 0, skipped_count := 0 }
      { title := "t", content := "c", url := "https://example.org/a", source := "s",
        category := ArticleCategory.cyber, published_date := none, relevance_score := 1 }
      { analysis := Except.error "quota exceeded",
        http := fun _ => Except.ok { raw := "resp" }, insta := Except.ok [] } 0 =
      ({ db := Database.empty, processed_count := 0, skipped_count := 0 }, []) :=
  (analysis_error_skips_item _ (fun s => s) false _ _ _ 0 [] "quota exceeded"
    (by decide) rfl).1

/-! ## C3: what happens after a successful persist -/

/-- Fixture settings for the orchestrator counterexample. -/
def cexSettings : Settings :=
  { strapi_api_token := "a-real-strapi-token-of-enough-length"
    instagram_enabled := true, max_articles_per_run := 5
    min_relevance_score := 7/10, article_min_words := 1500 }

/-- Fixture raw item for the orchestrator counterexample. -/
def cexItem : NewsArticle :=
  { title := "NATO Expands Operations", content := "body text", url := "https://example.org/a"
    source := "src", category := ArticleCategory.defense
    published_date := none, relevance_score := 1 }

/-- Fixture oracles: the analysis succeeds with a long-enough report and
every delivery transport would succeed. -/
def cexOracles : ItemOracles :=
  { analysis := Except.ok
      { title := "Report", content := "generated analysis", summary := "sum"
        seo_description := "desc", keywords := ["k1"], entities := []
        instagram_summary := "insta", word_count := 1600 }
    http := fun _ => Except.ok { raw := "resp" }
    insta := Except.ok [] }

/-- Counterexample to C3 as stated: in a non-dry run, a concrete item is
successfully persisted (one article row is committed) yet no publish-queue
entry is created and no delivery attempt of any kind is made. -/
theorem run_pipeline_no_enqueue_cex :
    (run_pipeline_item cexSettings (fun s => s) false
      { db := Database.empty, processed_count := 0, skipped_count := 0 }
      cexItem cexOracles 0).1.db.articles.length = 1 ∧
    (run_pipeline_item cexSettings (fun s => s) false
      { db := Database.empty, processed_count := 0, skipped_count := 0 }
      cexItem cexOracles 0).1.db.queue = [] ∧
    (run_pipeline_item cexSettings (fun s => s) false
      { db := Database.empty, processed_count := 0, skipped_count := 0 }
      cexItem cexOracles 0).1.db.metadataRows = [] ∧
    (run_pipeline_item cexSettings (fun s => s) false
      { db := Database.empty, processed_count := 0, skipped_count := 0 }
      cexItem cexOracles 0).2 = [] := by
  refine ⟨rfl, rfl, rfl, rfl⟩

/-- C3 as amended.  In any run, after `save_article` succeeds for a
(non-duplicate, long-enough) item the orchestrator creates no
publish-queue entry and writes no metadata row: the following
`save_metadata` call raises `TypeError` (it passes the keyword argument
`instagram_summary`, which `save_metadata` does not declare), the per-item
handler catches it, no delivery is attempted for the item, and the loop
continues from the state holding only the new article row and its
dedup-cache entry.  The stage-3 publishing block itself (unreachable in
the source) attempts CMS delivery directly — without enqueueing — and,
when enabled, social delivery; the two attempts are made whatever either
transport's outcome, and neither outcome escapes the block. -/
theorem run_pipeline_post_persist (settings : Settings) (sha256 : String → String)
    (dry_run : Bool) (s : PipelineState) (item : NewsArticle)
    (oracles : ItemOracles) (now : Nat) (a : AnalysisResult)
    (rest : List (NewsArticle × ItemOracles))
    (hdup : is_duplicate sha256 s.db.source_cache item.url item.content = false)
    (hok : oracles.analysis = Except.ok a)
    (hwc : ¬ a.word_count < settings.article_min_words) :
    run_pipeline_item settings sha256 dry_run s item oracles now =
      ({ s with db := (save_article sha256 s.db a.title a.content a.summary item.category
          (some item.url) (some item.source) (some item.content) (some a.word_count)
          (some item.relevance_score) now).1 }, []) ∧
    ((save_article sha256 s.db a.title a.content a.summary item.category
        (some item.url) (some item.source) (some item.content) (some a.word_count)
        (some item.relevance_score) now).1).queue = s.db.queue ∧
    ((save_article sha256 s.db a.title a.content a.summary item.category
        (some item.url) (some item.source) (some item.content) (some a.word_count)
        (some item.relevance_score) now).1).metadataRows = s.db.metadataRows ∧
    ((save_article sha256 s.db a.title a.content a.summary item.category
        (some item.url) (some item.source) (some item.content) (some a.word_count)
        (some item.relevance_score) now).1).articles =
      s.db.articles ++ [(save_article sha256 s.db a.title a.content a.summary item.category
        (some item.url) (some item.source) (some item.content) (some a.word_count)
        (some item.relevance_score) now).2] ∧
    run_pipeline_loop settings sha256 dry_run now s ((item, oracles) :: rest) =
      run_pipeline_loop settings sha256 dry_run now
        { s with db := (save_article sha256 s.db a.title a.content a.summary item.category
            (some item.url) (some item.source) (some item.content) (some a.word_count)
            (some item.relevance_score) now).1 } rest ∧
    (∀ (db : Database) (article : Article)
        (http : StrapiPayload → Except String StrapiData)
        (insta : Except String InstaData) (now2 : Nat),
      (publishStage settings db article http insta now2).2 =
        Event.cmsAttempt article.id ::
          (if settings.instagram_enabled then [Event.socialAttempt article.id] else []) ∧
      (publishStage settings db article http insta now2).1.queue = db.queue ∧
      (publishStage settings db article http insta now2).1.metadataRows = db.metadataRows) := by
  have hitem : run_pipeline_item settings sha256 dry_run s item oracles now =
      ({ s with db := (save_article sha256 s.db a.title a.content a.summary item.category
          (some item.url) (some item.source) (some item.content) (some a.word_count)
          (some item.relevance_score) now).1 }, []) := by
    simp [run_pipeline_item, hdup, hok, hwc]
  refine ⟨hitem, ?_, ?_, ?_, ?_, ?_⟩
  · simp only [save_article]
    split <;> rfl
  · simp only [save_article]
    split <;> rfl
  · simp only [save_article]
    split <;> rfl
  · simp [run_pipeline_loop, hitem]
  · intro db article http insta now2
    unfold publishStage
    refine ⟨?_, ?_, ?_⟩
    · rcases insta with e | r <;> simp
    · rcases publish_to_strapi settings.strapi_api_token article http with e | r <;>
        simp [mark_article_published]
    · rcases publish_to_strapi settings.strapi_api_token article http with e | r <;>
        simp [mark_article_published]

/-- Witness for C3 (amended): the concrete persisted item yields exactly
the article-only state with no events, and a concrete publishing-stage
call with both transports failing still attempts both deliveries. -/
theorem run_pipeline_post_persist_witness :
    run_pipeline_item cexSettings (fun s => s) false
      { db := Database.empty, processed_count := 0, skipped_count := 0 }
      cexItem cexOracles 0 =
      (⟨(save_article (fun s => s) Database.empty "Report" "generated analysis"
          "sum" ArticleCategory.defense (some "https://example.org/a") (some "src")
          (some "body text") (some 1600) (some 1) 0).1, 0, 0⟩, []) ∧
    (publishStage cexSettings Database.empty sampleArticle
      (fun _ => Except.error "cms down") (Except.error "social down") 1).2 =
      [Event.cmsAttempt 1, Event.socialAttempt 1] := by
  have h := run_pipeline_post_persist cexSettings (fun s => s) false
    { db := Database.empty, processed_count := 0, skipped_count := 0 }
    cexItem cexOracles 0
    { title := "Report", content := "generated analysis", summary := "sum"
      seo_description := "desc", keywords := ["k1"], entities := []
      instagram_summary := "insta", word_count := 1600 } []
    (by decide) rfl (by decide)
  refine ⟨h.1, ?_⟩
  have h2 := (h.2.2.2.2.2 Database.empty sampleArticle
    (fun _ => Except.error "cms down") (Except.error "social down") 1).1
  simpa [cexSettings, sampleArticle] using h2

/-! ## C5: the filter's output -/

/-- Every member of `dedupGo seen l` comes from `l`, its normalised title
is not in `seen`, and it is the first element of `l` carrying its
normalised title. -/
theorem dedupGo_mem {x : NewsArticle} (seen : List String) (l : List NewsArticle)
    (hx : x ∈ dedupGo seen l) :
    x ∈ l ∧ normalizeTitle x.title ∉ seen ∧
      (l.filter (fun z => normalizeTitle z.title == normalizeTitle x.title)).head? = some x := by
  induction l generalizing seen with
  | nil => simp [dedupGo] at hx
  | cons a t ih =>
    by_cases h : normalizeTitle a.title ∈ seen
    · rw [dedupGo, if_pos h] at hx
      obtain ⟨hmem, hnotin, hhead⟩ := ih seen hx
      have hne : (normalizeTitle a.title == normalizeTitle x.title) = false := by
        rw [beq_eq_false_iff_ne]
        intro hcontra
        exact hnotin (hcontra ▸ h)
      refine ⟨List.mem_cons_of_mem a hmem, hnotin, ?_⟩
      rw [List.filter_cons, hne]
      simpa using hhead
    · rw [dedupGo, if_neg h] at hx
      rcases List.mem_cons.mp hx with rfl | hx'
      · refine ⟨List.mem_cons_self x t, h, ?_⟩
        rw [List.filter_cons]
        simp
      · obtain ⟨hmem, hnotin, hhead⟩ := ih _ hx'
        have hne' : normalizeTitle x.title ≠ normalizeTitle a.title := by
          intro hcontra
          exact hnotin (by rw [hcontra]; exact List.mem_cons_self _ _)
        have hne : (normalizeTitle a.title == normalizeTitle x.title) = false := by
          rw [beq_eq_false_iff_ne]
          exact fun hc => hne' hc.symm
        refine ⟨List.mem_cons_of_mem a hmem,
          fun hc => hnotin (List.mem_cons_of_mem _ hc), ?_⟩
        rw [List.filter_cons, hne]
        simpa using hhead

/-- `dedupGo` output carries pairwise distinct normalised titles. -/
theorem dedupGo_pairwise (seen : List String) (l : List NewsArticle) :
    List.Pairwise (fun a b => normalizeTitle a.title ≠ normalizeTitle b.title)
      (dedupGo seen l) := by
  induction l generalizing seen with
  | nil => exact List.Pairwise.nil
  | cons a t ih =>
    rw [dedupGo]
    split
    · exact ih seen
    · refine List.Pairwise.cons ?_ (ih _)
      intro y hy heq
      exact (dedupGo_mem _ _ hy).2.1 (heq ▸ List.mem_cons_self _ _)

/-- C5.  The output of the relevance filter run after the same-batch
dedup (the composition `fetch_all_sources` performs) is sorted by
non-increasing recomputed score; every member passed the score threshold
and the 100-character minimum body length; no two members share a
normalised title; and every member is the score-updated first occurrence,
in original order, of its normalised title. -/
theorem filter_output_spec (articles : List NewsArticle) (min_score : ℚ) :
    List.Pairwise (fun a b => b.relevance_score ≤ a.relevance_score)
      (filter_content (deduplicate articles) min_score) ∧
    (∀ a ∈ filter_content (deduplicate articles) min_score,
      min_score ≤ a.relevance_score ∧ 100 ≤ a.content.length) ∧
    List.Pairwise (fun a b => normalizeTitle a.title ≠ normalizeTitle b.title)
      (filter_content (deduplicate articles) min_score) ∧
    (∀ a ∈ filter_content (deduplicate articles) min_score, ∃ x ∈ articles,
      (articles.filter
        (fun z => normalizeTitle z.title == normalizeTitle x.title)).head? = some x ∧
      a = withScore x) := by
  have hperm : (filter_content (deduplicate articles) min_score).Perm
      (((deduplicate articles).map withScore).filter
        (fun a => !decide (a.relevance_score < min_score) &&
                  !decide (a.content.length < 100))) :=
    List.mergeSort_perm _ _
  have hmem : ∀ a, a ∈ filter_content (deduplicate articles) min_score ↔
      a ∈ ((deduplicate articles).map withScore).filter
        (fun a => !decide (a.relevance_score < min_score) &&
                  !decide (a.content.length < 100)) := fun a => hperm.mem_iff
  refine ⟨?_, ?_, ?_, ?_⟩
  · have hs := @List.sorted_mergeSort NewsArticle
      (fun a b : NewsArticle => decide (b.relevance_score ≤ a.relevance_score))
      (fun a b c hab hbc => by
        simp only [decide_eq_true_eq] at *
        exact le_trans hbc hab)
      (fun a b => by
        simp only [Bool.or_eq_true, decide_eq_true_eq]
        exact le_total b.relevance_score a.relevance_score)
      (((deduplicate articles).map withScore).filter
        (fun a => !decide (a.relevance_score < min_score) &&
                  !decide (a.content.length < 100)))
    exact hs.imp (fun h => of_decide_eq_true h)
  · intro a ha
    have := (hmem a).mp ha
    rw [List.mem_filter] at this
    obtain ⟨-, hp⟩ := this
    simp only [Bool.and_eq_true, Bool.not_eq_true', decide_eq_false_iff_not, not_lt] at hp
    exact hp
  · have hbase : List.Pairwise
        (fun a b => normalizeTitle a.title ≠ normalizeTitle b.title)
        (((deduplicate articles).map withScore).filter
          (fun a => !decide (a.relevance_score < min_score) &&
                    !decide (a.content.length < 100))) := by
      refine List.Pairwise.sublist (List.filter_sublist _) ?_
      exact List.pairwise_map.mpr (dedupGo_pairwise [] articles)
    exact (hperm.pairwise_iff (fun h => Ne.symm h)).mpr hbase
  · intro a ha
    have := (hmem a).mp ha
    rw [List.mem_filter] at this
    obtain ⟨hmap, -⟩ := this
    obtain ⟨x, hxdedup, rfl⟩ := List.mem_map.mp hmap
    obtain ⟨hxmem, -, hxhead⟩ := dedupGo_mem [] articles hxdedup
    exact ⟨x, hxmem, hxhead, rfl⟩

/-- First witness item for C5: high-relevance defense item, long body. -/
def wArt1 : NewsArticle :=
  { title := "NATO Expands Operations"
    content := "The military alliance announced new joint exercises and combat operations to reinforce deterrence and defense across Europe."
    url := "https://example.org/1", source := "feed"
    category := ArticleCategory.defense, published_date := none, relevance_score := 0 }

/-- Second witness item for C5: same normalised title as `wArt1`. -/
def wArt2 : NewsArticle :=
  { title := "nato expands operations!!!"
    content := "A different body about armed forces, security cooperation and strategic assets, long enough to pass the minimum length filter."
    url := "https://example.org/2", source := "feed"
    category := ArticleCategory.defense, published_date := none, relevance_score := 0 }

set_option maxRecDepth 40000 in
unseal Rat.mul Rat.inv List.merge List.mergeSort in
/-- Witness for C5 at a concrete two-item batch whose normalised titles
collide: the first occurrence survives with its recomputed score. -/
theorem filter_output_spec_witness :
    withScore wArt1 ∈ filter_content (deduplicate [wArt1, wArt2]) 0 ∧
    (0 : ℚ) ≤ (withScore wArt1).relevance_score ∧
    100 ≤ (withScore wArt1).content.length ∧
    (∃ x ∈ [wArt1, wArt2],
      ([wArt1, wArt2].filter
        (fun z => normalizeTitle z.title == normalizeTitle x.title)).head? = some x ∧
      withScore wArt1 = withScore x) := by
  have hmem : withScore wArt1 ∈ filter_content (deduplicate [wArt1, wArt2]) 0 := by
    decide
  have h := filter_output_spec [wArt1, wArt2] 0
  exact ⟨hmem, (h.2.1 _ hmem).1, (h.2.1 _ hmem).2, h.2.2.2 _ hmem⟩

/-! ## C1: queue-entry transitions under the drain -/

/-- `update_publish_status` updates exactly the distinguished entry when
the entries before it carry different ids. -/
theorem update_publish_status_at (l1 l2 : List PublishQueue) (e : PublishQueue)
    (status : PublishStatus) (error_message : Option String)
    (platform_data : Option PlatformData) (now : Nat)
    (h : ∀ x ∈ l1, x.id ≠ e.id) :
    update_publish_status (l1 ++ e :: l2) e.id status error_message platform_data now =
      Except.ok (l1 ++ applyStatus e status error_message platform_data now :: l2) := by
  induction l1 with
  | nil =>
    simp [update_publish_status]
  | cons x t ih =>
    have hx : (x.id == e.id) = false := by
      simp [h x (List.mem_cons_self x t)]
    simp only [List.cons_append, update_publish_status, hx, Bool.false_eq_true, if_false,
      List.append_eq]
    rw [ih (fun y hy => h y (List.mem_cons_of_mem x hy))]

/-- C1.  A pending entry processed by one drain iteration first moves to
`processing` and then either completes or fails (or, when its article id
resolves to no article, is skipped untouched).  On the `failed` outcome
the entry's `retry_count` grows by exactly one and the raised message is
recorded; on the `completed` outcome `retry_count` is unchanged and
`published_time` is set.  The drain only ever picks entries that are
`pending` (last conjunct). -/
theorem publish_queue_entry_transitions (strapi_api_token : String)
    (db : Database) (entry : PublishQueue)
    (http : StrapiPayload → Except String StrapiData)
    (insta : Except String InstaData) (now : Nat)
    (l1 l2 : List PublishQueue)
    (hq : db.queue = l1 ++ entry :: l2)
    (hids : ∀ x ∈ l1, x.id ≠ entry.id)
    (hpending : entry.status = PublishStatus.pending) :
    entry.status = PublishStatus.pending ∧
    (applyStatus entry PublishStatus.processing none none now).status =
      PublishStatus.processing ∧
    (∃ db2, processQueueEntry strapi_api_token db entry http insta now = Except.ok db2 ∧
      ((db.articles.find? (fun a => a.id == entry.article_id) = none ∧ db2 = db) ∨
       (∃ pd, ∃ final,
         final = applyStatus (applyStatus entry PublishStatus.processing none none now)
           PublishStatus.completed none (some pd) now ∧
         db2.queue = l1 ++ final :: l2 ∧
         final.status = PublishStatus.completed ∧
         final.retry_count = entry.retry_count ∧
         final.published_time = some now) ∨
       (∃ msg, ∃ final,
         final = applyStatus (applyStatus entry PublishStatus.processing none none now)
           PublishStatus.failed (some msg) none now ∧
         db2.queue = l1 ++ final :: l2 ∧
         final.status = PublishStatus.failed ∧
         final.retry_count = entry.retry_count + 1 ∧
         final.error_message = some msg ∧
         final.published_time = entry.published_time)) ) ∧
    (∀ q : List PublishQueue, ∀ x ∈ get_pending_publications q,
      x.status = PublishStatus.pending) := by
  have happly1 :
      update_publish_status db.queue entry.id PublishStatus.processing none none now =
        Except.ok (l1 ++ applyStatus entry PublishStatus.processing none none now :: l2) := by
    rw [hq]
    exact update_publish_status_at l1 l2 entry _ none none now hids
  have hmid_id : (applyStatus entry PublishStatus.processing none none now).id = entry.id := by
    simp [applyStatus]
  refine ⟨hpending, by simp [applyStatus], ?_, ?_⟩
  · set eP := applyStatus entry PublishStatus.processing none none now with hEP
    have happly2 : ∀ (st : PublishStatus) (em : Option String) (pd : Option PlatformData),
        update_publish_status (l1 ++ eP :: l2) entry.id st em pd now =
          Except.ok (l1 ++ applyStatus eP st em pd now :: l2) := by
      intro st em pd
      have := update_publish_status_at l1 l2 eP st em pd now
        (fun x hx => by rw [hEP, hmid_id]; exact hids x hx)
      rwa [hEP, hmid_id] at this
    cases hfind : db.articles.find? (fun a => a.id == entry.article_id) with
    | none =>
      have heq : processQueueEntry strapi_api_token db entry http insta now =
          Except.ok db := by
        simp only [processQueueEntry, hfind]
      exact ⟨db, heq, Or.inl ⟨rfl, rfl⟩⟩
    | some article =>
      cases hplat : entry.platform with
      | strapi =>
        cases hpub : publish_to_strapi strapi_api_token article http with
        | ok result =>
          have heq : processQueueEntry strapi_api_token db entry http insta now =
              Except.ok { db with
                articles := markPublishedGo db.articles article.id now
                queue := l1 ++ applyStatus eP PublishStatus.completed none
                  (some (PlatformData.strapi result)) now :: l2 } := by
            simp only [processQueueEntry, hfind, happly1, hplat, hpub, happly2,
              mark_article_published]
          refine ⟨_, heq, Or.inr (Or.inl ⟨PlatformData.strapi result, _, rfl, rfl,
            ?_, ?_, ?_⟩)⟩
          · simp [applyStatus, hEP]
          · simp [applyStatus, hEP]
          · simp [applyStatus, hEP]
        | error e =>
          have heq : processQueueEntry strapi_api_token db entry http insta now =
              Except.ok { db with
                queue := l1 ++ applyStatus eP PublishStatus.failed (some e) none now :: l2 } := by
            simp only [processQueueEntry, hfind, happly1, hplat, hpub, happly2]
          refine ⟨_, heq, Or.inr (Or.inr ⟨e, _, rfl, rfl, ?_, ?_, ?_, ?_⟩)⟩
          · simp [applyStatus, hEP]
          · simp [applyStatus, hEP]
          · simp [applyStatus, hEP]
          · simp [applyStatus, hEP]
      | instagram =>
        cases insta with
        | ok result =>
          have heq : processQueueEntry strapi_api_token db entry http (Except.ok result) now =
              Except.ok { db with
                queue := l1 ++ applyStatus eP PublishStatus.completed none
                  (some (PlatformData.instagram result)) now :: l2 } := by
            simp only [processQueueEntry, hfind, happly1, hplat, happly2]
          refine ⟨_, heq, Or.inr (Or.inl ⟨PlatformData.instagram result, _, rfl, rfl,
            ?_, ?_, ?_⟩)⟩
          · simp [applyStatus, hEP]
          · simp [applyStatus, hEP]
          · simp [applyStatus, hEP]
        | error e =>
          have heq : processQueueEntry strapi_api_token db entry http (Except.error e) now =
              Except.ok { db with
                queue := l1 ++ applyStatus eP PublishStatus.failed (some e) none now :: l2 } := by
            simp only [processQueueEntry, hfind, happly1, hplat, happly2]
          refine ⟨_, heq, Or.inr (Or.inr ⟨e, _, rfl, rfl, ?_, ?_, ?_, ?_⟩)⟩
          · simp [applyStatus, hEP]
          · simp [applyStatus, hEP]
          · simp [applyStatus, hEP]
          · simp [applyStatus, hEP]
  · intro q x hx
    have := List.mem_filter.mp hx
    simpa using this.2

/-- A concrete pending CMS queue entry for the C1 witness. -/
def wEntry : PublishQueue :=
  { id := 1, article_id := 1, platform := PublishPlatform.strapi
    status := PublishStatus.pending, scheduled_time := none, published_time := none
    retry_count := 0, error_message := none, platform_data := none }

/-- A concrete store holding one article and the pending entry. -/
def wDb : Database :=
  { articles := [sampleArticle], metadataRows := [], queue := [wEntry], source_cache := [] }

/-- Witness for C1: one drain iteration over the concrete pending entry
returns a store whose entry took one of the claimed transition paths. -/
theorem publish_queue_entry_transitions_witness :
    ∃ db2, processQueueEntry "a-real-strapi-token-of-enough-length" wDb wEntry
        (fun _ => Except.ok { raw := "resp" }) (Except.ok []) 7 = Except.ok db2 ∧
      ((wDb.articles.find? (fun a => a.id == wEntry.article_id) = none ∧ db2 = wDb) ∨
       (∃ pd, ∃ final,
         final = applyStatus (applyStatus wEntry PublishStatus.processing none none 7)
           PublishStatus.completed none (some pd) 7 ∧
         db2.queue = [] ++ final :: [] ∧
         final.status = PublishStatus.completed ∧
         final.retry_count = wEntry.retry_count ∧
         final.published_time = some 7) ∨
       (∃ msg, ∃ final,
         final = applyStatus (applyStatus wEntry PublishStatus.processing none none 7)
           PublishStatus.failed (some msg) none 7 ∧
         db2.queue = [] ++ final :: [] ∧
         final.status = PublishStatus.failed ∧
         final.retry_count = wEntry.retry_count + 1 ∧
         final.error_message = some msg ∧
         final.published_time = wEntry.published_time)) :=
  (publish_queue_entry_transitions "a-real-strapi-token-of-enough-length" wDb wEntry
    (fun _ => Except.ok { raw := "resp" }) (Except.ok []) 7 [] [] rfl
    (by simp) rfl).2.2.1

/-! ## C10: totality of the response parser and the entities fallback -/

/-- Unfolding of the `keywords` field of `parse_gemini_response`. -/
theorem parse_keywords_eq (jsonLoads : String → Option Entities) (s : String) :
    (parse_gemini_response jsonLoads s).keywords =
      (if (metadataSectionOf s.data).isEmpty then []
       else
         match scanFor kwTryAt (metadataSectionOf s.data) with
         | some cap => (pySplitOnChar ',' cap).map pyStrip
         | none => []).map String.mk := rfl

/-- Unfolding of the `entities` field of `parse_gemini_response`. -/
theorem parse_entities_eq (jsonLoads : String → Option Entities) (s : String) :
    (parse_gemini_response jsonLoads s).entities =
      (if (metadataSectionOf s.data).isEmpty then []
       else
         match scanFor entTryAt (metadataSectionOf s.data) with
         | some cap => (jsonLoads (String.mk cap)).getD []
         | none => []) := rfl

/-- C10.  `parse_gemini_response` is a total function into the eight-field
analysis record (so every input, the empty string included, yields all
eight fields without raising — totality is the existence of the Lean
function itself); when the metadata marker is absent or the section empty
the keywords and entities fall back to empty; a missing `ENTITIES` capture
yields the empty map; and a capture the JSON decoder rejects also yields
the empty map. -/
theorem parse_gemini_response_entities_fallback
    (jsonLoads : String → Option Entities) (response_text : String) :
    (metadataSectionOf response_text.data = [] →
      (parse_gemini_response jsonLoads response_text).keywords = [] ∧
      (parse_gemini_response jsonLoads response_text).entities = []) ∧
    (scanFor entTryAt (metadataSectionOf response_text.data) = none →
      (parse_gemini_response jsonLoads response_text).entities = []) ∧
    (∀ cap, scanFor entTryAt (metadataSectionOf response_text.data) = some cap →
      jsonLoads (String.mk cap) = none →
      (parse_gemini_response jsonLoads response_text).entities = []) := by
  refine ⟨?_, ?_, ?_⟩
  · intro h
    rw [parse_keywords_eq, parse_entities_eq, h]
    simp
  · intro h
    rw [parse_entities_eq]
    by_cases hempty : (metadataSectionOf response_text.data).isEmpty
    · simp [hempty]
    · simp [hempty, h]
  · intro cap hcap hjson
    rw [parse_entities_eq]
    by_cases hempty : (metadataSectionOf response_text.data).isEmpty
    · simp [hempty]
    · simp [hempty, hcap, hjson]

/-- Witness for C10: a marker-free input falls back to empty keywords and
entities, and an input whose `ENTITIES` capture the decoder rejects yields
the empty map. -/
theorem parse_gemini_response_entities_fallback_witness :
    (parse_gemini_response (fun _ => none) "no markers in this text").keywords = [] ∧
    (parse_gemini_response (fun _ => none) "no markers in this text").entities = [] ∧
    (parse_gemini_response (fun _ => none)
      "Body\n---METADATA---\nENTITIES: {bad json}\n---END_METADATA---").entities = [] := by
  refine ⟨?_, ?_, ?_⟩
  · exact ((parse_gemini_response_entities_fallback (fun _ => none)
      "no markers in this text").1 (by decide)).1
  · exact ((parse_gemini_response_entities_fallback (fun _ => none)
      "no markers in this text").1 (by decide)).2
  · exact (parse_gemini_response_entities_fallback (fun _ => none)
      "Body\n---METADATA---\nENTITIES: {bad json}\n---END_METADATA---").2.2
      "{bad json}".data (by decide) rfl

/-! ## C9: round trip of the KEYWORDS metadata line -/

/-- A `re.search` scan skips a region where the pattern matches at no
position. -/
theorem scanFor_append_of_none (tryAt : List Char → Option α)
    (pre rest : List Char)
    (h : ∀ i < pre.length, tryAt (pre.drop i ++ rest) = none) :
    scanFor tryAt (pre ++ rest) = scanFor tryAt rest := by
  induction pre with
  | nil => rfl
  | cons c t ih =>
    have h0 := h 0 (by simp)
    simp only [List.drop_zero, List.cons_append] at h0
    rw [List.cons_append, scanFor, h0]
    exact ih (fun i hi => h (i + 1) (by simpa using Nat.succ_lt_succ hi))

/-- A scan over a nonempty text whose very first position matches. -/
theorem scanFor_eq_some_of_tryAt (tryAt : List Char → Option α)
    (s : List Char) (r : α) (h : tryAt s = some r) (hs : s ≠ []) :
    scanFor tryAt s = some r := by
  cases s with
  | nil => exact absurd rfl hs
  | cons c cs => rw [scanFor, h]

/-- `split(sep, 1)` splits at an occurrence site when the pattern matches
at no earlier position. -/
theorem splitFirst_at (pat A Z : List Char) (hpat : pat ≠ [])
    (h : ∀ i < A.length, pat.isPrefixOf (A.drop i ++ (pat ++ Z)) = false) :
    splitFirst pat (A ++ (pat ++ Z)) = some (A, Z) := by
  induction A with
  | nil =>
    cases pat with
    | nil => exact absurd rfl hpat
    | cons p ps =>
      have hself : (p :: ps).isPrefixOf ((p :: ps) ++ Z) = true :=
        List.isPrefixOf_iff_prefix.mpr (List.prefix_append _ _)
      simp only [List.nil_append, List.cons_append] at *
      rw [splitFirst, if_pos hself]
      simp [List.drop_left]
  | cons a t ih =>
    have h0 := h 0 (by simp)
    simp only [List.drop_zero, List.cons_append] at h0
    rw [List.cons_append, splitFirst, h0]
    simp only [Bool.false_eq_true, if_false]
    rw [ih (fun i hi => h (i + 1) (by simpa using Nat.succ_lt_succ hi))]

/-- The metadata section of a response assembled from an article part,
a metadata block and a trailer, when neither marker occurs early. -/
theorem metadataSectionOf_concat (A M Z : List Char)
    (hA : ∀ i < A.length, metaMarker.isPrefixOf
      (A.drop i ++ (metaMarker ++ (M ++ (endMetaMarker ++ Z)))) = false)
    (hM : ∀ i < M.length, endMetaMarker.isPrefixOf
      (M.drop i ++ (endMetaMarker ++ Z)) = false) :
    metadataSectionOf (A ++ (metaMarker ++ (M ++ (endMetaMarker ++ Z)))) = M := by
  simp only [metadataSectionOf,
    splitFirst_at metaMarker A (M ++ (endMetaMarker ++ Z)) (by decide) hA,
    takeBefore, splitFirst_at endMetaMarker M Z (by decide) hM]

/-- The zero-or-more capture of the `KEYWORDS` pattern takes exactly a
bracket-free, newline-free body up to the closing bracket. -/
theorem capChars_append (body post : List Char)
    (hrb : ']' ∉ body) (hnl : '\n' ∉ body) :
    capChars (body ++ ']' :: post) = some body := by
  induction body with
  | nil => simp [capChars]
  | cons c cs ih =>
    have hc1 : ¬ c = ']' := fun h => hrb (h ▸ List.mem_cons_self c cs)
    have hc2 : ¬ c = '\n' := fun h => hnl (h ▸ List.mem_cons_self c cs)
    rw [List.cons_append, capChars]
    simp only [hc1, hc2, if_false]
    rw [ih (fun h => hrb (List.mem_cons_of_mem c h))
          (fun h => hnl (List.mem_cons_of_mem c h))]
    rfl

/-- The one-or-more capture, for a nonempty body. -/
theorem capToRBracket_append (body post : List Char) (hne : body ≠ [])
    (hrb : ']' ∉ body) (hnl : '\n' ∉ body) :
    capToRBracket (body ++ ']' :: post) = some body := by
  cases body with
  | nil => exact absurd rfl hne
  | cons c cs =>
    have hc1 : ¬ c = ']' := fun h => hrb (h ▸ List.mem_cons_self c cs)
    have hc2 : ¬ c = '\n' := fun h => hnl (h ▸ List.mem_cons_self c cs)
    rw [List.cons_append, capToRBracket]
    simp only [hc1, hc2, if_false]
    rw [capChars_append cs post (fun h => hrb (List.mem_cons_of_mem c h))
          (fun h => hnl (List.mem_cons_of_mem c h))]
    rfl

/-- The text of a well-formed `KEYWORDS: [body]` occurrence followed by
arbitrary metadata text. -/
def kwSite (body post : List Char) : List Char :=
  "KEYWORDS:".data ++ (' ' :: '[' :: (body ++ ']' :: post))

/-- The response family of the round-trip claim: an article part, the
metadata markers, and a metadata block holding a `KEYWORDS: [body]`
occurrence. -/
def responseWithKeywords (A pre body post Z : List Char) : String :=
  String.mk (A ++ (metaMarker ++ ((pre ++ kwSite body post) ++ (endMetaMarker ++ Z))))

/-- The `KEYWORDS` pattern matched at the occurrence site captures exactly
the body. -/
theorem kwTryAt_at_site (body post : List Char) (hne : body ≠ [])
    (hrb : ']' ∉ body) (hnl : '\n' ∉ body) :
    kwTryAt (kwSite body post) = some body := by
  unfold kwSite kwTryAt
  rw [if_pos (List.isPrefixOf_iff_prefix.mpr (List.prefix_append _ _))]
  have hdrop : ("KEYWORDS:".data ++ (' ' :: '[' :: (body ++ ']' :: post))).drop 9 =
      ' ' :: '[' :: (body ++ ']' :: post) := by
    have h9 : "KEYWORDS:".data.length = 9 := rfl
    rw [← h9, List.drop_left]
  rw [hdrop]
  have hws : List.dropWhile Char.isWhitespace (' ' :: '[' :: (body ++ ']' :: post)) =
      '[' :: (body ++ ']' :: post) := by
    simp [List.dropWhile]
  rw [hws]
  exact capToRBracket_append body post hne hrb hnl

/-- C9.  For every response of the well-formed family — markers present,
no early false marker or `KEYWORDS` match, a nonempty bracket-free
newline-free body — the parsed keywords are exactly the comma-separated
entries of the bracketed body, in order, each stripped of surrounding
whitespace. -/
theorem keywords_round_trip (jsonLoads : String → Option Entities)
    (A pre body post Z : List Char)
    (hA : ∀ i < A.length, metaMarker.isPrefixOf
      (A.drop i ++ (metaMarker ++ ((pre ++ kwSite body post) ++ (endMetaMarker ++ Z)))) = false)
    (hM : ∀ i < (pre ++ kwSite body post).length, endMetaMarker.isPrefixOf
      ((pre ++ kwSite body post).drop i ++ (endMetaMarker ++ Z)) = false)
    (hpre : ∀ i < pre.length, kwTryAt (pre.drop i ++ kwSite body post) = none)
    (hne : body ≠ []) (hrb : ']' ∉ body) (hnl : '\n' ∉ body) :
    (parse_gemini_response jsonLoads (responseWithKeywords A pre body post Z)).keywords =
      (pySplitOnChar ',' body).map (fun k => String.mk (pyStrip k)) := by
  rw [parse_keywords_eq]
  have hdata : (responseWithKeywords A pre body post Z).data =
      A ++ (metaMarker ++ ((pre ++ kwSite body post) ++ (endMetaMarker ++ Z))) := rfl
  have hms : metadataSectionOf (responseWithKeywords A pre body post Z).data =
      pre ++ kwSite body post := by
    rw [hdata]
    exact metadataSectionOf_concat A (pre ++ kwSite body post) Z hA hM
  have hscan : scanFor kwTryAt (pre ++ kwSite body post) = some body := by
    rw [scanFor_append_of_none kwTryAt pre (kwSite body post) hpre]
    refine scanFor_eq_some_of_tryAt kwTryAt (kwSite body post) body
      (kwTryAt_at_site body post hne hrb hnl) ?_
    simp [kwSite]
  have hnonempty : (pre ++ kwSite body post).isEmpty = false := by
    simp [kwSite]
  rw [hms, hnonempty, hscan]
  simp [List.map_map]

/-- Witness for C9: the concrete body `a, b, c` inside a realistic
response parses to exactly `["a", "b", "c"]`. -/
theorem keywords_round_trip_witness :
    (parse_gemini_response (fun _ => none)
      (responseWithKeywords "# T\nIntro text".data "SEO_DESCRIPTION: d\n".data
        "a, b, c".data "\nCATEGORY: defense".data "\ntrailer".data)).keywords =
      ["a", "b", "c"] :=
  (keywords_round_trip (fun _ => none) "# T\nIntro text".data "SEO_DESCRIPTION: d\n".data
    "a, b, c".data "\nCATEGORY: defense".data "\ntrailer".data
    (by decide) (by decide) (by decide) (by decide) (by decide) (by decide)).trans
    (by decide)

end Msh
